import Mathlib

/-!
Shallow embedding of `letsencrypt/renewer.py` (the renewal/deployment
orchestrator): the `renew` executor, and the batch driver of `main`.

External collaborators that the orchestrator calls (the lineage store
`storage.RenewableCert`, the plugin registry, the issuance client, the
certificate SAN reader) are modelled from the specification's collaborator
contracts, as explicit state (`LineageStore`) or as environment functions
(`Env`).  Everything in `renew` and `main` themselves is translated line
by line from the source.
-/

namespace Renewer

/-- Strip leading and trailing whitespace from a character list. -/
def trimChars (cs : List Char) : List Char :=
  ((cs.dropWhile Char.isWhitespace).reverse.dropWhile Char.isWhitespace).reverse

/-- Read a non-empty run of decimal digits as a number; `none` on any
non-digit character. -/
def natOfDigits : List Char → Nat → Option Nat
  | [], acc => some acc
  | c :: cs, acc =>
    if c.isDigit then natOfDigits cs (acc * 10 + (c.toNat - 48)) else none

/-- Models Python `int()` applied to a configuration string: surrounding
whitespace is ignored, an optional sign is allowed, then decimal digits;
any other text raises `ValueError`, modelled as `none`. -/
def pyInt (s : String) : Option Int :=
  match trimChars s.data with
  | [] => none
  | '+' :: rest =>
    if rest.isEmpty then none else (natOfDigits rest 0).map Int.ofNat
  | '-' :: rest =>
    if rest.isEmpty then none else (natOfDigits rest 0).map (fun n => -(n : Int))
  | rest => (natOfDigits rest 0).map Int.ofNat

/-- Python `str.endswith`, over the characters of the two strings. -/
def strEndsWith (s suffix : String) : Bool :=
  suffix.data.isSuffixOf s.data

/-- A flat key/value section of a `configobj` file.  Lookup takes the first
binding, so `mergeMap` below puts the overriding layer first. -/
abbrev ConfMap := List (String × String)

/-- `configobj` merge of two flat sections: keys present in `other` override
`base`; keys absent from `other` fall through to `base`. -/
def mergeMap (base other : ConfMap) : ConfMap :=
  other ++ base

/-- A per-lineage (or renewer-wide) `configobj` file: flat top-level keys and
the optional `renewalparams` subsection. -/
structure ConfigFile where
  top : ConfMap
  renewalparams : Option ConfMap
  deriving Repr, DecidableEq

/-- `configobj` `base.merge(other)`: values of `other` override, sections are
merged recursively (here the only section is `renewalparams`). -/
def mergeConfig (base other : ConfigFile) : ConfigFile :=
  { top := mergeMap base.top other.top
    renewalparams :=
      match base.renewalparams, other.renewalparams with
      | none, o => o
      | some b, none => some b
      | some b, some o => some (mergeMap b o) }

/-- Modelled from the spec: one immutable version snapshot of a lineage
(certificate, private key, chain artifacts), as owned by the external
Lineage Store (`letsencrypt.storage`, not under `src/`). -/
structure VersionData where
  certPem : String
  keyPem : String
  chainPem : String
  deriving Repr, DecidableEq

/-- Modelled from the spec: the external Lineage Store's state for one
lineage.  Version `n` (1-based, monotonically increasing with no gaps) is
`versions.get? (n-1)`; the three current pointers reference versions. -/
structure LineageStore where
  versions : List VersionData
  currentCert : Nat
  currentPrivkey : Nat
  currentChain : Nat
  deriving Repr, DecidableEq

/-- Modelled from the spec: `latestVersion()` returns the highest recorded
version number (`latest_common_version` in the source). -/
def LineageStore.latestCommonVersion (s : LineageStore) : Nat :=
  s.versions.length

/-- Modelled from the spec: `versionPath("cert", v)` followed by reading the
file — yields the certificate artifact bytes of version `v`, or fails when
the version is absent. -/
def LineageStore.certPemAt (s : LineageStore) (v : Nat) : Option String :=
  match v with
  | 0 => none
  | n + 1 => (s.versions.get? n).map (fun vd => vd.certPem)

/-- Modelled from the spec: `saveSuccessor(baseVersion, certPEM, keyPEM,
chainPEM)` creates exactly one new version anchored at the base version,
returns its number, and leaves the current pointers untouched. -/
def LineageStore.saveSuccessor (s : LineageStore) (_base : Nat)
    (certPem keyPem chainPem : String) : LineageStore × Nat :=
  ({ s with versions := s.versions ++ [⟨certPem, keyPem, chainPem⟩] },
   s.versions.length + 1)

/-- Modelled from the spec: `advanceCurrentTo(version)` atomically repoints
all three current pointers (`update_all_links_to` in the source). -/
def LineageStore.updateAllLinksTo (s : LineageStore) (v : Nat) : LineageStore :=
  { s with currentCert := v, currentPrivkey := v, currentChain := v }

/-- The lineage view handed to `renew`: the merged configuration file of the
lineage plus the external store state (`storage.RenewableCert`). -/
structure RenewableCert where
  configfile : ConfigFile
  store : LineageStore
  deriving Repr, DecidableEq

/-- Exceptions that can escape `renew` (nothing in `renew` or `main`
catches them, apart from the `KeyError` of the registry lookup which is
turned into `False`). -/
inductive RenErr where
  /-- `AttributeError`: a configuration attribute is absent. -/
  | attrError (field : String)
  /-- `ValueError`: `int()` applied to non-numeric text. -/
  | valueError (field : String)
  /-- the authenticator plugin's `prepare()` failed. -/
  | prepareError
  /-- `IOError`: the base version's certificate file is absent. -/
  | ioError
  deriving Repr, DecidableEq

/-- Observable calls `renew` makes on its collaborators. -/
inductive Event where
  | prepared (auth : String)
  | obtainCalled (names : List String)
  | savedSuccessor (base : Nat)
  deriving Repr, DecidableEq

/-- What the issuance client's `obtain_certificate` returns:
`(new_certr, new_chain, new_key, _)`; `chain` is `none` when issuance
failed (the only failure signal the source inspects). -/
structure ObtainResult where
  certPem : String
  chain : Option String
  keyPem : String
  deriving Repr, DecidableEq

/-- The external collaborators of one renewal attempt: the plugin registry
(`find_all`, a name-indexed mapping, modelled by the list of known names),
the authenticator's `prepare()` outcome per name, the issuance client, and
the certificate reader `get_sans_from_cert` (all outside `src/`, modelled
from the spec's collaborator contracts). -/
structure Env where
  plugins : List String
  prepareOk : String → Bool
  obtain : List String → ObtainResult
  getSans : String → List String

/-- Models `int(config.<field>)` where `config` wraps `renewalparams` via
`_AttrDict`/`NamespaceConfig`: attribute lookup delegates to the dictionary,
so a missing key raises `AttributeError` and non-numeric text makes `int()`
raise `ValueError`. -/
def coerceIntField (m : ConfMap) (field : String) : Except RenErr Int :=
  match m.lookup field with
  | none => .error (.attrError field)
  | some s =>
    match pyInt s with
    | none => .error (.valueError field)
    | some n => .ok n

deriving instance DecidableEq for Except

/-- Result of one `renew` call: the Python return value (`False` is
`Except.ok none`, a new version number is `Except.ok (some n)`, an escaped
exception is `Except.error e`), the lineage after the call, and the
collaborator calls made. -/
structure RenewOut where
  result : Except RenErr (Option Nat)
  cert : RenewableCert
  events : List Event
  deriving Repr, DecidableEq

/-- `renew(cert, old_version)` from `renewer.py`, line by line:
short-circuit on a missing `renewalparams` section or authenticator name;
coerce `rsa_key_size` and `dvsni_port` with `int()` (uncaught on failure);
look the authenticator up in the registry (`KeyError` becomes `False`);
`prepare()` (uncaught on failure); read the base version's certificate and
extract its SANs; call `obtain_certificate(sans)`; on a chain, persist via
`save_successor(old_version, ...)` and return the new version number,
otherwise return `False`. -/
def renew (cert : RenewableCert) (oldVersion : Nat) (env : Env) : RenewOut :=
  match cert.configfile.renewalparams with
  | none => ⟨.ok none, cert, []⟩
  | some renewalparams =>
    match renewalparams.lookup "authenticator" with
    | none => ⟨.ok none, cert, []⟩
    | some authName =>
      match coerceIntField renewalparams "rsa_key_size" with
      | .error e => ⟨.error e, cert, []⟩
      | .ok _ =>
        match coerceIntField renewalparams "dvsni_port" with
        | .error e => ⟨.error e, cert, []⟩
        | .ok _ =>
          if authName ∈ env.plugins then
            if env.prepareOk authName then
              match cert.store.certPemAt oldVersion with
              | none => ⟨.error .ioError, cert, [.prepared authName]⟩
              | some pem =>
                let sans := env.getSans pem
                let r := env.obtain sans
                match r.chain with
                | some chainPem =>
                  let sv := cert.store.saveSuccessor oldVersion r.certPem r.keyPem chainPem
                  ⟨.ok (some sv.2), { cert with store := sv.1 },
                   [.prepared authName, .obtainCalled sans, .savedSuccessor oldVersion]⟩
                | none =>
                  ⟨.ok none, cert, [.prepared authName, .obtainCalled sans]⟩
            else ⟨.error .prepareError, cert, []⟩
          else ⟨.ok none, cert, []⟩

/-- One entry of the renewal-configurations directory listing: the file
name, the parsed contents of the `.conf` file, and the lineage's on-disk
store state (owned by the external Lineage Store). -/
structure FileEntry where
  name : String
  conf : ConfigFile
  store : LineageStore
  deriving Repr, DecidableEq

/-- Observable actions of the batch driver. -/
inductive BEvent where
  /-- the Executor was invoked for this file with this base version. -/
  | renewCalled (file : String) (base : Nat)
  /-- `notify("Autorenewed a cert!!!", "root", "It worked!")`. -/
  | notifiedRenewal (file : String)
  /-- current pointers advanced to this version. -/
  | deployed (file : String) (version : Nat)
  /-- `notify("Autodeployed a cert!!!", "root", "It worked!")`. -/
  | notifiedDeployment (file : String)
  deriving Repr, DecidableEq

/-- The batch driver's environment: process-wide defaults
(`storage.config_with_defaults`), the renewer-wide config file's contents,
the fields whose absence makes `storage.RenewableCert` construction raise
`ValueError` (modelled from the spec: a construction failure is a missing
required field), the external policy predicates, and the renewal
environment. -/
structure BatchEnv where
  defaults : ConfigFile
  renewerConf : ConfigFile
  requiredFields : List String
  shouldAutorenew : RenewableCert → Bool
  shouldAutodeploy : RenewableCert → Bool
  env : Env

/-- Modelled from the spec: `storage.RenewableCert(rc_config, cli_config)`
raises `ValueError` when a required configuration field is missing;
otherwise it yields the lineage view over the merged config. -/
def mkRenewableCert (required : List String) (rc : ConfigFile)
    (store : LineageStore) : Option RenewableCert :=
  if required.all (fun k => (rc.top.lookup k).isSome) then
    some ⟨rc, store⟩
  else none

/-- The per-lineage body of `main`'s loop, after construction succeeded:
if `should_autorenew()`, call `renew` with the latest common version as
base (its return value is discarded) and then notify; if
`should_autodeploy()`, advance all links to the latest common version and
notify.  An exception escaping `renew` escapes this body. -/
def processEntry (benv : BatchEnv) (name : String) (cert : RenewableCert) :
    Except RenErr (RenewableCert × List BEvent) :=
  let step1 : Except RenErr (RenewableCert × List BEvent) :=
    if benv.shouldAutorenew cert then
      let oldVersion := cert.store.latestCommonVersion
      let r := renew cert oldVersion benv.env
      match r.result with
      | .error e => .error e
      | .ok _ =>
        .ok (r.cert, [.renewCalled name oldVersion, .notifiedRenewal name])
    else .ok (cert, [])
  match step1 with
  | .error e => .error e
  | .ok (cert1, evs1) =>
    if benv.shouldAutodeploy cert1 then
      let v := cert1.store.latestCommonVersion
      .ok ({ cert1 with store := cert1.store.updateAllLinksTo v },
           evs1 ++ [.deployed name v, .notifiedDeployment name])
    else .ok (cert1, evs1)

/-- Outcome of a batch run: the lineages whose handling completed (with
their final state, in directory order), the driver actions, and — when an
exception escaped `renew` — the exception that aborted the run (every
later file is then unprocessed). -/
structure BatchResult where
  processed : List (String × RenewableCert)
  events : List BEvent
  error : Option RenErr
  deriving Repr, DecidableEq

/-- The loop of `main` over the directory listing: skip names without the
`.conf` suffix; build `rc_config` by merging the renewer-wide config file
with the per-lineage file; a `ValueError` from `RenewableCert` construction
skips the file; an exception escaping `renew` aborts the whole run. -/
def runFiles (benv : BatchEnv) : List FileEntry → BatchResult
  | [] => ⟨[], [], none⟩
  | f :: rest =>
    if strEndsWith f.name ".conf" then
      let rcConfig := mergeConfig benv.renewerConf f.conf
      match mkRenewableCert benv.requiredFields rcConfig f.store with
      | none => runFiles benv rest
      | some cert =>
        match processEntry benv f.name cert with
        | .error e => ⟨[], [], some e⟩
        | .ok (certFinal, evs) =>
          let r := runFiles benv rest
          ⟨(f.name, certFinal) :: r.processed, evs ++ r.events, r.error⟩
    else runFiles benv rest

/-- `main`: merge the process-wide defaults with the renewer-wide config
file — the source computes this merged object but never consults it again
(the loop rebuilds `rc_config` from the renewer config file alone) — then
process the directory listing. -/
def main (benv : BatchEnv) (files : List FileEntry) : BatchResult :=
  let _config := mergeConfig benv.defaults benv.renewerConf
  runFiles benv files

/-- The lineage after the autorenewal step of `main`'s loop body: the state
`renew` left behind when the autorenew policy fired, the untouched lineage
otherwise. -/
def afterRenewStep (benv : BatchEnv) (cert : RenewableCert) : RenewableCert :=
  if benv.shouldAutorenew cert then
    (renew cert cert.store.latestCommonVersion benv.env).cert
  else cert

/-! ### Concrete example data, used by witnesses and counterexamples -/

/-- Version 1 of the example lineage. -/
def exampleVersion : VersionData := ⟨"CERTPEM1", "KEY1", "CHAIN1"⟩

/-- An example lineage store holding one version, all pointers at 1. -/
def exampleStore : LineageStore := ⟨[exampleVersion], 1, 1, 1⟩

/-- A well-formed `renewalparams` section. -/
def paramsOk : ConfMap :=
  [("authenticator", "dvsni"), ("rsa_key_size", "2048"), ("dvsni_port", "443")]

/-- A `renewalparams` section whose key size is non-numeric text. -/
def paramsBadKeySize : ConfMap :=
  [("authenticator", "dvsni"), ("rsa_key_size", "not_a_number"), ("dvsni_port", "443")]

/-- An environment where issuance succeeds with a chain. -/
def envWithChain : Env :=
  ⟨["dvsni"], fun _ => true, fun _ => ⟨"NEWCERT", some "NEWCHAIN", "NEWKEY"⟩,
   fun _ => ["example.org"]⟩

/-- An environment where issuance returns no chain. -/
def envNoChain : Env :=
  ⟨["dvsni"], fun _ => true, fun _ => ⟨"NEWCERT", none, "NEWKEY"⟩,
   fun _ => ["example.org"]⟩

/-- An environment with an empty plugin registry. -/
def envNoPlugin : Env :=
  ⟨[], fun _ => true, fun _ => ⟨"NEWCERT", some "NEWCHAIN", "NEWKEY"⟩,
   fun _ => ["example.org"]⟩

/-- An environment where the authenticator's `prepare()` fails. -/
def envPrepareFail : Env :=
  ⟨["dvsni"], fun _ => false, fun _ => ⟨"NEWCERT", some "NEWCHAIN", "NEWKEY"⟩,
   fun _ => ["example.org"]⟩

/-- A renewable lineage with a well-formed `renewalparams` section. -/
def certOk : RenewableCert := ⟨⟨[("cert", "c.pem")], some paramsOk⟩, exampleStore⟩

/-- A lineage whose configuration has no `renewalparams` section. -/
def certNoParams : RenewableCert := ⟨⟨[("cert", "c.pem")], none⟩, exampleStore⟩

/-- A lineage whose `renewalparams` has no authenticator name. -/
def certNoAuthName : RenewableCert :=
  ⟨⟨[("cert", "c.pem")], some [("rsa_key_size", "2048"), ("dvsni_port", "443")]⟩,
   exampleStore⟩

/-- A lineage whose `renewalparams` has a non-numeric key size. -/
def certBadKeySize : RenewableCert :=
  ⟨⟨[("cert", "c.pem")], some paramsBadKeySize⟩, exampleStore⟩

/-! ### Helper lemmas about `renew` -/

theorem renew_of_no_renewalparams (cert : RenewableCert) (oldVersion : Nat)
    (env : Env) (h : cert.configfile.renewalparams = none) :
    renew cert oldVersion env = ⟨.ok none, cert, []⟩ := by
  simp [renew, h]

theorem renew_of_no_auth_name (cert : RenewableCert) (oldVersion : Nat)
    (env : Env) (rp : ConfMap) (h1 : cert.configfile.renewalparams = some rp)
    (h2 : rp.lookup "authenticator" = none) :
    renew cert oldVersion env = ⟨.ok none, cert, []⟩ := by
  simp [renew, h1, h2]

theorem renew_error_of_bad_fields (cert : RenewableCert) (oldVersion : Nat)
    (env : Env) (rp : ConfMap) (authName : String)
    (h1 : cert.configfile.renewalparams = some rp)
    (h2 : rp.lookup "authenticator" = some authName)
    (h3 : ¬ ((coerceIntField rp "rsa_key_size").isOk = true ∧
             (coerceIntField rp "dvsni_port").isOk = true)) :
    ∃ e, renew cert oldVersion env = ⟨.error e, cert, []⟩ := by
  cases hk : coerceIntField rp "rsa_key_size" with
  | error e => exact ⟨e, by simp [renew, h1, h2, hk]⟩
  | ok a =>
    cases hp : coerceIntField rp "dvsni_port" with
    | error e => exact ⟨e, by simp [renew, h1, h2, hk, hp]⟩
    | ok b => exact absurd ⟨by rw [hk]; rfl, by rw [hp]; rfl⟩ h3

theorem renew_of_unknown_auth (cert : RenewableCert) (oldVersion : Nat)
    (env : Env) (rp : ConfMap) (authName : String) (a b : Int)
    (h1 : cert.configfile.renewalparams = some rp)
    (h2 : rp.lookup "authenticator" = some authName)
    (h3 : coerceIntField rp "rsa_key_size" = .ok a)
    (h4 : coerceIntField rp "dvsni_port" = .ok b)
    (h5 : authName ∉ env.plugins) :
    renew cert oldVersion env = ⟨.ok none, cert, []⟩ := by
  simp [renew, h1, h2, h3, h4, h5]

theorem renew_of_prepare_fail (cert : RenewableCert) (oldVersion : Nat)
    (env : Env) (rp : ConfMap) (authName : String) (a b : Int)
    (h1 : cert.configfile.renewalparams = some rp)
    (h2 : rp.lookup "authenticator" = some authName)
    (h3 : coerceIntField rp "rsa_key_size" = .ok a)
    (h4 : coerceIntField rp "dvsni_port" = .ok b)
    (h5 : authName ∈ env.plugins)
    (h6 : env.prepareOk authName = false) :
    renew cert oldVersion env = ⟨.error .prepareError, cert, []⟩ := by
  simp [renew, h1, h2, h3, h4, h5, h6]

theorem renew_obtain_names (cert : RenewableCert) (oldVersion : Nat)
    (env : Env) (names : List String)
    (h : Event.obtainCalled names ∈ (renew cert oldVersion env).events) :
    ∃ pem, cert.store.certPemAt oldVersion = some pem ∧
      names = env.getSans pem := by
  unfold renew at h
  split at h
  · simp at h
  · split at h
    · simp at h
    · split at h
      · simp at h
      · split at h
        · simp at h
        · split at h
          · split at h
            · split at h
              · simp at h
              · rename_i pem hpem
                refine ⟨pem, hpem, ?_⟩
                simp only [] at h
                split at h <;> simp_all
            · simp at h
          · simp at h

/-- Complete case characterization of `renew`: it returns `False` with no
state change, raises with no state change, or succeeds having appended
exactly one version. -/
theorem renew_eq_cases (cert : RenewableCert) (oldVersion : Nat) (env : Env) :
    renew cert oldVersion env = ⟨.ok none, cert, []⟩ ∨
    (∃ e, renew cert oldVersion env = ⟨.error e, cert, []⟩) ∨
    (∃ auth, renew cert oldVersion env =
       ⟨.error .ioError, cert, [.prepared auth]⟩) ∨
    (∃ auth pem, cert.store.certPemAt oldVersion = some pem ∧
       (env.obtain (env.getSans pem)).chain = none ∧
       renew cert oldVersion env =
         ⟨.ok none, cert, [.prepared auth, .obtainCalled (env.getSans pem)]⟩) ∨
    (∃ auth pem chainPem,
       cert.store.certPemAt oldVersion = some pem ∧
       (env.obtain (env.getSans pem)).chain = some chainPem ∧
       renew cert oldVersion env =
         ⟨.ok (some (cert.store.versions.length + 1)),
          ⟨cert.configfile,
           ⟨cert.store.versions ++
              [⟨(env.obtain (env.getSans pem)).certPem,
                (env.obtain (env.getSans pem)).keyPem, chainPem⟩],
            cert.store.currentCert, cert.store.currentPrivkey,
            cert.store.currentChain⟩⟩,
          [.prepared auth, .obtainCalled (env.getSans pem),
           .savedSuccessor oldVersion]⟩) := by
  unfold renew
  split
  · exact Or.inl rfl
  · split
    · exact Or.inl rfl
    · rename_i authName hauth
      split
      · rename_i e heq
        exact Or.inr (Or.inl ⟨e, rfl⟩)
      · split
        · rename_i e heq
          exact Or.inr (Or.inl ⟨e, rfl⟩)
        · split
          · split
            · split
              · exact Or.inr (Or.inr (Or.inl ⟨authName, rfl⟩))
              · rename_i pem hpem
                simp only []
                split
                · rename_i chainPem hchain
                  refine Or.inr (Or.inr (Or.inr (Or.inr
                    ⟨authName, pem, chainPem, hpem, hchain, ?_⟩)))
                  simp [LineageStore.saveSuccessor]
                · rename_i hchain
                  exact Or.inr (Or.inr (Or.inr (Or.inl
                    ⟨authName, pem, hpem, hchain, rfl⟩)))
            · exact Or.inr (Or.inl ⟨.prepareError, rfl⟩)
          · exact Or.inl rfl

/-! ### Batch-level example data and helper lemmas -/

/-- A directory entry with a well-formed `renewalparams` section. -/
def fileOk : FileEntry :=
  ⟨"good.conf", ⟨[("cert", "c.pem")], some paramsOk⟩, exampleStore⟩

/-- A second well-formed directory entry. -/
def fileSecond : FileEntry :=
  ⟨"second.conf", ⟨[("cert", "c.pem")], some paramsOk⟩, exampleStore⟩

/-- A directory entry whose key size is non-numeric. -/
def fileBadKeySize : FileEntry :=
  ⟨"bad.conf", ⟨[("cert", "c.pem")], some paramsBadKeySize⟩, exampleStore⟩

/-- A directory entry with no `renewalparams` section at all. -/
def fileNoParams : FileEntry :=
  ⟨"plain.conf", ⟨[("cert", "c.pem")], none⟩, exampleStore⟩

/-- A directory entry used for the configuration-merge scenarios. -/
def fileA : FileEntry := ⟨"a.conf", ⟨[("cert", "c.pem")], none⟩, exampleStore⟩

/-- A batch environment where both policies always fire and issuance
succeeds with a chain. -/
def benvAll : BatchEnv :=
  ⟨⟨[], none⟩, ⟨[], none⟩, [], fun _ => true, fun _ => true, envWithChain⟩

/-- A batch environment whose authenticator's `prepare()` fails. -/
def benvPrepare : BatchEnv :=
  ⟨⟨[], none⟩, ⟨[], none⟩, [], fun _ => true, fun _ => true, envPrepareFail⟩

/-- A batch environment whose process-wide defaults hold a key that
appears in no config file, with both policies off. -/
def benvDefaults : BatchEnv :=
  ⟨⟨[("deploy_before_expiry", "10 days")], none⟩,
   ⟨[("renewer_enabled", "true")], none⟩, [],
   fun _ => false, fun _ => false, envWithChain⟩

theorem lookup_mergeMap_of_some (base other : ConfMap) (k v : String)
    (h : other.lookup k = some v) :
    (mergeMap base other).lookup k = some v := by
  induction other with
  | nil => simp [List.lookup] at h
  | cons kv rest ih =>
    rcases kv with ⟨k1, v1⟩
    cases hbeq : (k == k1) with
    | true =>
      simp only [List.lookup, hbeq] at h
      simp only [mergeMap, List.cons_append, List.lookup, hbeq]
      exact h
    | false =>
      simp only [List.lookup, hbeq] at h
      simp only [mergeMap, List.cons_append, List.lookup, hbeq]
      simpa [mergeMap] using ih h

theorem lookup_mergeMap_of_none (base other : ConfMap) (k : String)
    (h : other.lookup k = none) :
    (mergeMap base other).lookup k = base.lookup k := by
  induction other with
  | nil => simp [mergeMap]
  | cons kv rest ih =>
    rcases kv with ⟨k1, v1⟩
    cases hbeq : (k == k1) with
    | true =>
      simp only [List.lookup, hbeq] at h
      exact absurd h (by simp)
    | false =>
      simp only [List.lookup, hbeq] at h
      simp only [mergeMap, List.cons_append, List.lookup, hbeq]
      simpa [mergeMap] using ih h

/-- The batch driver reads nothing from the defaults-merged configuration:
`runFiles` is invariant under any replacement of the defaults layer. -/
theorem runFiles_defaults (benv : BatchEnv) (d : ConfigFile)
    (files : List FileEntry) :
    runFiles { benv with defaults := d } files = runFiles benv files := by
  induction files with
  | nil => rfl
  | cons f rest ih =>
    have hpe : processEntry { benv with defaults := d } = processEntry benv :=
      rfl
    simp only [runFiles, hpe, ih]

theorem mkRenewableCert_configfile (required : List String)
    (rc : ConfigFile) (store : LineageStore) (cert : RenewableCert)
    (h : mkRenewableCert required rc store = some cert) :
    cert.configfile = rc ∧ cert.store = store := by
  unfold mkRenewableCert at h
  split at h
  · cases h
    exact ⟨rfl, rfl⟩
  · exact absurd h (by simp)

theorem processEntry_renew_error (benv : BatchEnv) (name : String)
    (cert : RenewableCert) (e : RenErr)
    (har : benv.shouldAutorenew cert = true)
    (hres : (renew cert cert.store.latestCommonVersion benv.env).result =
      .error e) :
    processEntry benv name cert = .error e := by
  simp [processEntry, har, hres]

theorem processEntry_renew_ok_deploy (benv : BatchEnv) (name : String)
    (cert : RenewableCert) (r : Option Nat)
    (har : benv.shouldAutorenew cert = true)
    (hres : (renew cert cert.store.latestCommonVersion benv.env).result =
      .ok r)
    (had : benv.shouldAutodeploy
      (renew cert cert.store.latestCommonVersion benv.env).cert = true) :
    processEntry benv name cert = .ok
      (⟨(renew cert cert.store.latestCommonVersion benv.env).cert.configfile,
        ((renew cert cert.store.latestCommonVersion
            benv.env).cert.store.updateAllLinksTo
          (renew cert cert.store.latestCommonVersion
            benv.env).cert.store.latestCommonVersion)⟩,
       [.renewCalled name cert.store.latestCommonVersion,
        .notifiedRenewal name,
        .deployed name
          (renew cert cert.store.latestCommonVersion
            benv.env).cert.store.latestCommonVersion,
        .notifiedDeployment name]) := by
  simp [processEntry, har, hres, had]

theorem processEntry_renew_ok_nodeploy (benv : BatchEnv) (name : String)
    (cert : RenewableCert) (r : Option Nat)
    (har : benv.shouldAutorenew cert = true)
    (hres : (renew cert cert.store.latestCommonVersion benv.env).result =
      .ok r)
    (had : benv.shouldAutodeploy
      (renew cert cert.store.latestCommonVersion benv.env).cert = false) :
    processEntry benv name cert = .ok
      ((renew cert cert.store.latestCommonVersion benv.env).cert,
       [.renewCalled name cert.store.latestCommonVersion,
        .notifiedRenewal name]) := by
  simp [processEntry, har, hres, had]

theorem processEntry_norenew_deploy (benv : BatchEnv) (name : String)
    (cert : RenewableCert)
    (har : benv.shouldAutorenew cert = false)
    (had : benv.shouldAutodeploy cert = true) :
    processEntry benv name cert = .ok
      (⟨cert.configfile,
        cert.store.updateAllLinksTo cert.store.latestCommonVersion⟩,
       [.deployed name cert.store.latestCommonVersion,
        .notifiedDeployment name]) := by
  simp [processEntry, har, had]

theorem processEntry_norenew_nodeploy (benv : BatchEnv) (name : String)
    (cert : RenewableCert)
    (har : benv.shouldAutorenew cert = false)
    (had : benv.shouldAutodeploy cert = false) :
    processEntry benv name cert = .ok (cert, []) := by
  simp [processEntry, har, had]

theorem renew_ok_some_latest (cert : RenewableCert) (oldVersion : Nat)
    (env : Env) (n : Nat)
    (h : (renew cert oldVersion env).result = .ok (some n)) :
    (renew cert oldVersion env).cert.store.latestCommonVersion = n := by
  rcases renew_eq_cases cert oldVersion env with hc | ⟨e, hc⟩ | ⟨auth, hc⟩ |
      ⟨auth, pem, hpem, hchain, hc⟩ |
      ⟨auth, pem, chainPem, hpem, hchain, hc⟩ <;>
    rw [hc] at h ⊢ <;> simp_all [LineageStore.latestCommonVersion]

theorem runFiles_cons_ok (benv : BatchEnv) (f : FileEntry)
    (rest : List FileEntry) (cert final : RenewableCert)
    (evs : List BEvent)
    (hs : strEndsWith f.name ".conf" = true)
    (hmk : mkRenewableCert benv.requiredFields
      (mergeConfig benv.renewerConf f.conf) f.store = some cert)
    (hpe : processEntry benv f.name cert = .ok (final, evs)) :
    runFiles benv (f :: rest) =
      ⟨(f.name, final) :: (runFiles benv rest).processed,
       evs ++ (runFiles benv rest).events,
       (runFiles benv rest).error⟩ := by
  simp [runFiles, hs, hmk, hpe]

/-! ### Claim theorems -/

/-- C1: whenever a renewal attempt reaches issuance, the name set passed to
`obtain_certificate` equals exactly the subject alternative names read from
the base version's certificate artifact, and it is never derived from the
lineage's configuration: replacing the configuration by any other (same
store) yields the same name set at every issuance call. -/
theorem renew_names_equal_base_sans (cert : RenewableCert) (oldVersion : Nat)
    (env : Env) (names : List String)
    (h : Event.obtainCalled names ∈ (renew cert oldVersion env).events) :
    (∃ pem, cert.store.certPemAt oldVersion = some pem ∧
       names = env.getSans pem) ∧
    ∀ cf names2,
      Event.obtainCalled names2 ∈
        (renew ⟨cf, cert.store⟩ oldVersion env).events →
      names2 = names := by
  obtain ⟨pem, hpem, hn⟩ := renew_obtain_names cert oldVersion env names h
  refine ⟨⟨pem, hpem, hn⟩, ?_⟩
  intro cf names2 h2
  obtain ⟨pem2, hpem2, hn2⟩ :=
    renew_obtain_names ⟨cf, cert.store⟩ oldVersion env names2 h2
  rw [hpem] at hpem2
  rw [hn2, ← Option.some.inj hpem2, ← hn]

/-- Witness for C1: in the example environment the issuance call receives
exactly the SANs the reader extracts from version 1's certificate. -/
theorem renew_names_equal_base_sans_witness :
    ∃ pem, certOk.store.certPemAt 1 = some pem ∧
      ["example.org"] = envWithChain.getSans pem :=
  (renew_names_equal_base_sans certOk 1 envWithChain ["example.org"]
    (by decide)).1

/-- C7: a lineage whose configuration has no `renewalparams` section, or
whose `renewalparams` has no authenticator name, makes `renew` return
"not renewed" (`False`) with the lineage unchanged, no collaborator calls,
and no exception. -/
theorem renew_short_circuit_not_renewed (cert : RenewableCert)
    (oldVersion : Nat) (env : Env)
    (h : cert.configfile.renewalparams = none ∨
         ∃ rp, cert.configfile.renewalparams = some rp ∧
           rp.lookup "authenticator" = none) :
    renew cert oldVersion env = ⟨.ok none, cert, []⟩ := by
  rcases h with h | ⟨rp, h1, h2⟩
  · exact renew_of_no_renewalparams cert oldVersion env h
  · exact renew_of_no_auth_name cert oldVersion env rp h1 h2

/-- Witness for C7 at both short-circuits. -/
theorem renew_short_circuit_not_renewed_witness :
    renew certNoParams 1 envWithChain = ⟨.ok none, certNoParams, []⟩ ∧
    renew certNoAuthName 1 envWithChain = ⟨.ok none, certNoAuthName, []⟩ :=
  ⟨renew_short_circuit_not_renewed certNoParams 1 envWithChain
     (Or.inl (by decide)),
   renew_short_circuit_not_renewed certNoAuthName 1 envWithChain
     (Or.inr ⟨[("rsa_key_size", "2048"), ("dvsni_port", "443")],
       by decide, by decide⟩)⟩

/-- C8 counterexample: a lineage whose `renewalparams` names an
authenticator absent from the (empty) registry but whose key size is
non-numeric makes `renew` raise `ValueError` — it does not return
"not renewed", refuting the claim as stated. -/
theorem unknown_auth_not_renewed_cex :
    paramsBadKeySize.lookup "authenticator" = some "dvsni" ∧
    ("dvsni" ∈ envNoPlugin.plugins) = False ∧
    (renew certBadKeySize 1 envNoPlugin).result =
      .error (RenErr.valueError "rsa_key_size") := by
  refine ⟨by decide, by simp [envNoPlugin], by decide⟩

/-- C8 (amended): provided the two numeric fields of `renewalparams`
coerce to integers, a lineage naming an authenticator that cannot be
resolved from the registry makes `renew` return "not renewed" with no side
effects and no error raised. -/
theorem unknown_auth_not_renewed_amended (cert : RenewableCert)
    (oldVersion : Nat) (env : Env) (rp : ConfMap) (authName : String)
    (a b : Int)
    (h1 : cert.configfile.renewalparams = some rp)
    (h2 : rp.lookup "authenticator" = some authName)
    (h3 : coerceIntField rp "rsa_key_size" = .ok a)
    (h4 : coerceIntField rp "dvsni_port" = .ok b)
    (h5 : authName ∉ env.plugins) :
    renew cert oldVersion env = ⟨.ok none, cert, []⟩ :=
  renew_of_unknown_auth cert oldVersion env rp authName a b h1 h2 h3 h4 h5

/-- Witness for the amended C8. -/
theorem unknown_auth_not_renewed_amended_witness :
    renew certOk 1 envNoPlugin = ⟨.ok none, certOk, []⟩ :=
  unknown_auth_not_renewed_amended certOk 1 envNoPlugin paramsOk "dvsni"
    2048 443 rfl (by decide) (by decide) (by decide) (by decide)

/-- C10: `renew` coerces `rsa_key_size` and `dvsni_port` with `int()`
before the registry lookup, so when either field is missing or holds
non-numeric text it raises — leaving the lineage untouched and making no
collaborator call — in every environment, including any whose registry
does not know the named authenticator. -/
theorem renew_raises_on_bad_numeric (cert : RenewableCert)
    (oldVersion : Nat) (env : Env) (rp : ConfMap) (authName : String)
    (h1 : cert.configfile.renewalparams = some rp)
    (h2 : rp.lookup "authenticator" = some authName)
    (h3 : ¬ ((coerceIntField rp "rsa_key_size").isOk = true ∧
             (coerceIntField rp "dvsni_port").isOk = true)) :
    ∃ e, renew cert oldVersion env = ⟨.error e, cert, []⟩ :=
  renew_error_of_bad_fields cert oldVersion env rp authName h1 h2 h3

/-- Witness for C10: the raise happens even though the registry is empty
(the authenticator lookup, which would return `False`, is never reached). -/
theorem renew_raises_on_bad_numeric_witness :
    ∃ e, renew certBadKeySize 1 envNoPlugin =
      ⟨.error e, certBadKeySize, []⟩ :=
  renew_raises_on_bad_numeric certBadKeySize 1 envNoPlugin paramsBadKeySize
    "dvsni" rfl (by decide) (by decide)

/-- C9: `renew`'s effect on the Lineage Store is all-or-nothing.  On
success the returned number is the old latest version plus one, the store
gained exactly one appended version (prior versions unchanged), no current
pointer moved, and the event trace shows a single `save_successor` call
anchored at the base version.  When the result is "not renewed" — in
particular whenever issuance returned no chain — the lineage is completely
unchanged. -/
theorem renew_store_all_or_nothing (cert : RenewableCert) (oldVersion : Nat)
    (env : Env) :
    (∀ n, (renew cert oldVersion env).result = .ok (some n) →
       n = cert.store.latestCommonVersion + 1 ∧
       (renew cert oldVersion env).cert.store.latestCommonVersion =
         cert.store.latestCommonVersion + 1 ∧
       (∃ vd, (renew cert oldVersion env).cert.store.versions =
          cert.store.versions ++ [vd]) ∧
       (renew cert oldVersion env).cert.store.currentCert =
         cert.store.currentCert ∧
       (renew cert oldVersion env).cert.store.currentPrivkey =
         cert.store.currentPrivkey ∧
       (renew cert oldVersion env).cert.store.currentChain =
         cert.store.currentChain ∧
       ∃ auth names, (renew cert oldVersion env).events =
         [.prepared auth, .obtainCalled names,
          .savedSuccessor oldVersion]) ∧
    ((renew cert oldVersion env).result = .ok none →
       (renew cert oldVersion env).cert = cert) ∧
    (∀ names, Event.obtainCalled names ∈ (renew cert oldVersion env).events →
       (env.obtain names).chain = none →
       (renew cert oldVersion env).result = .ok none ∧
       (renew cert oldVersion env).cert = cert) := by
  rcases renew_eq_cases cert oldVersion env with h | ⟨e, h⟩ | ⟨auth, h⟩ |
      ⟨auth, pem, hpem, hchain, h⟩ | ⟨auth, pem, chainPem, hpem, hchain, h⟩ <;>
    rw [h]
  · simp
  · simp
  · simp
  · simp
  · refine ⟨?_, by simp, ?_⟩
    · intro n hn
      simp only [Except.ok.injEq, Option.some.injEq] at hn
      refine ⟨hn.symm, by simp [LineageStore.latestCommonVersion], ⟨_, rfl⟩,
        rfl, rfl, rfl, auth, env.getSans pem, rfl⟩
    · intro names hmem hnone
      simp only [List.mem_cons, List.not_mem_nil, or_false] at hmem
      rcases hmem with hmem | hmem | hmem
      · exact absurd hmem (by simp)
      · rw [Event.obtainCalled.inj hmem, hchain] at hnone
        exact absurd hnone (by simp)
      · exact absurd hmem (by simp)

/-- C2 counterexample: in a two-lineage batch whose first lineage has a
non-numeric key size, the `ValueError` escapes `renew` and the lineage
boundary and aborts the run — the second, well-formed lineage (which alone
is processed without error) is never reached, refuting "the batch
continues with the next lineage". -/
theorem numeric_fault_not_skipped_cex :
    main benvAll [fileBadKeySize, fileOk] =
      ⟨[], [], some (RenErr.valueError "rsa_key_size")⟩ ∧
    (main benvAll [fileOk]).error = none ∧
    (main benvAll [fileOk]).processed.length = 1 :=
  ⟨by decide, by decide, by decide⟩

/-- C2 (amended): a non-numeric value in a numeric field of
`renewalparams` is not skipped at the batch level: `renew` raises, the
exception crosses the lineage boundary, and the batch run aborts with no
lineage of the run processed further. -/
theorem numeric_fault_aborts_batch (benv : BatchEnv) (f : FileEntry)
    (rest : List FileEntry) (cert : RenewableCert) (rp : ConfMap)
    (authName : String)
    (hs : strEndsWith f.name ".conf" = true)
    (hmk : mkRenewableCert benv.requiredFields
      (mergeConfig benv.renewerConf f.conf) f.store = some cert)
    (har : benv.shouldAutorenew cert = true)
    (h1 : cert.configfile.renewalparams = some rp)
    (h2 : rp.lookup "authenticator" = some authName)
    (h3 : ¬ ((coerceIntField rp "rsa_key_size").isOk = true ∧
             (coerceIntField rp "dvsni_port").isOk = true)) :
    ∃ e, runFiles benv (f :: rest) = ⟨[], [], some e⟩ := by
  obtain ⟨e, hrenew⟩ := renew_error_of_bad_fields cert
    cert.store.latestCommonVersion benv.env rp authName h1 h2 h3
  have hres : (renew cert cert.store.latestCommonVersion benv.env).result =
      .error e := by rw [hrenew]
  have hpe := processEntry_renew_error benv f.name cert e har hres
  exact ⟨e, by simp [runFiles, hs, hmk, hpe]⟩

/-- Witness for the amended C2. -/
theorem numeric_fault_aborts_batch_witness :
    ∃ e, runFiles benvAll [fileBadKeySize, fileOk] = ⟨[], [], some e⟩ :=
  numeric_fault_aborts_batch benvAll fileBadKeySize [fileOk] certBadKeySize
    paramsBadKeySize "dvsni" (by decide) (by decide) (by decide) rfl
    (by decide) (by decide)

/-- C3 counterexample: when the authenticator's `prepare()` fails, `renew`
does not return a negative result — the exception escapes it — and a
two-lineage batch aborts instead of continuing to the second lineage. -/
theorem prepare_fail_not_contained_cex :
    renew certOk 1 envPrepareFail = ⟨.error .prepareError, certOk, []⟩ ∧
    main benvPrepare [fileOk, fileSecond] =
      ⟨[], [], some RenErr.prepareError⟩ :=
  ⟨by decide, by decide⟩

/-- C3 (amended): when the authenticator's `prepare()` step fails, the
exception propagates out of `renew` (no negative result is returned), no
successor version is created and no collaborator call is made, and the
batch run aborts rather than continuing to the next lineage. -/
theorem prepare_fail_propagates_and_aborts (benv : BatchEnv) (f : FileEntry)
    (rest : List FileEntry) (cert : RenewableCert) (rp : ConfMap)
    (authName : String) (a b : Int)
    (hs : strEndsWith f.name ".conf" = true)
    (hmk : mkRenewableCert benv.requiredFields
      (mergeConfig benv.renewerConf f.conf) f.store = some cert)
    (har : benv.shouldAutorenew cert = true)
    (h1 : cert.configfile.renewalparams = some rp)
    (h2 : rp.lookup "authenticator" = some authName)
    (h3 : coerceIntField rp "rsa_key_size" = .ok a)
    (h4 : coerceIntField rp "dvsni_port" = .ok b)
    (h5 : authName ∈ benv.env.plugins)
    (h6 : benv.env.prepareOk authName = false) :
    renew cert cert.store.latestCommonVersion benv.env =
      ⟨.error .prepareError, cert, []⟩ ∧
    runFiles benv (f :: rest) = ⟨[], [], some RenErr.prepareError⟩ := by
  have hrenew := renew_of_prepare_fail cert cert.store.latestCommonVersion
    benv.env rp authName a b h1 h2 h3 h4 h5 h6
  have hres : (renew cert cert.store.latestCommonVersion benv.env).result =
      .error .prepareError := by rw [hrenew]
  have hpe := processEntry_renew_error benv f.name cert .prepareError har hres
  exact ⟨hrenew, by simp [runFiles, hs, hmk, hpe]⟩

/-- Witness for the amended C3. -/
theorem prepare_fail_propagates_and_aborts_witness :
    renew certOk certOk.store.latestCommonVersion benvPrepare.env =
      ⟨.error .prepareError, certOk, []⟩ ∧
    runFiles benvPrepare [fileOk, fileSecond] =
      ⟨[], [], some RenErr.prepareError⟩ :=
  prepare_fail_propagates_and_aborts benvPrepare fileOk [fileSecond] certOk
    paramsOk "dvsni" 2048 443 (by decide) (by decide) (by decide) rfl
    (by decide) (by decide) (by decide) (by decide) (by decide)

/-- C4 counterexample: a lineage with no `renewalparams` makes `renew`
return "not renewed", yet the batch driver still emits the renewal
notification for it — refuting "a notification is emitted only when renew
reports success". -/
theorem notify_only_on_success_cex :
    (renew certNoParams 1 envWithChain).result = .ok none ∧
    BEvent.notifiedRenewal "plain.conf" ∈
      (main benvAll [fileNoParams]).events :=
  ⟨by decide, by decide⟩

/-- C4 (amended): the renewal notification is emitted whenever the
autorenew policy fired and `renew` completed without raising — regardless
of whether it reported success or "not renewed"; only an exception escaping
`renew` (which aborts the lineage's processing) suppresses it. -/
theorem notify_fires_without_raise (benv : BatchEnv) (name : String)
    (cert : RenewableCert)
    (har : benv.shouldAutorenew cert = true) :
    (∀ r, (renew cert cert.store.latestCommonVersion benv.env).result =
        .ok r →
      ∃ final evs, processEntry benv name cert = .ok (final, evs) ∧
        BEvent.notifiedRenewal name ∈ evs) ∧
    (∀ e, (renew cert cert.store.latestCommonVersion benv.env).result =
        .error e →
      processEntry benv name cert = .error e) := by
  constructor
  · intro r hr
    by_cases had : benv.shouldAutodeploy
        (renew cert cert.store.latestCommonVersion benv.env).cert = true
    · exact ⟨_, _, processEntry_renew_ok_deploy benv name cert r har hr had,
        by simp⟩
    · exact ⟨_, _, processEntry_renew_ok_nodeploy benv name cert r har hr
        (by simpa using had), by simp⟩
  · intro e he
    exact processEntry_renew_error benv name cert e har he

/-- Witness for the amended C4: the "Autorenewed" notification fires even
though `renew` returned "not renewed". -/
theorem notify_fires_without_raise_witness :
    ∃ final evs, processEntry benvAll "plain.conf" certNoParams =
      .ok (final, evs) ∧
    BEvent.notifiedRenewal "plain.conf" ∈ evs :=
  (notify_fires_without_raise benvAll "plain.conf" certNoParams
    (by decide)).1 none (by decide)

/-- C5 counterexample: a key set only in the process-wide defaults is not
visible in the per-lineage effective configuration: the batch processes the
lineage with a configuration merged from the renewer-wide file and the
lineage file only. -/
theorem defaults_layer_invisible_cex :
    benvDefaults.defaults.top.lookup "deploy_before_expiry" =
      some "10 days" ∧
    (main benvDefaults [fileA]).processed =
      [("a.conf",
        ⟨⟨[("cert", "c.pem"), ("renewer_enabled", "true")], none⟩,
         exampleStore⟩)] ∧
    (⟨⟨[("cert", "c.pem"), ("renewer_enabled", "true")], none⟩,
       exampleStore⟩ : RenewableCert).configfile.top.lookup
      "deploy_before_expiry" = none :=
  ⟨by decide, by decide, by decide⟩

/-- C5 (amended): the effective per-lineage configuration is the ordered
merge of two layers only — the renewer-wide config file, then the
per-lineage config file (later overrides, unset keys fall through) — while
the defaults-merged configuration is built but never consulted: the whole
run is invariant under any replacement of the defaults layer. -/
theorem effective_config_two_layers (benv : BatchEnv) (f : FileEntry)
    (rest : List FileEntry) (cert : RenewableCert)
    (hmk : mkRenewableCert benv.requiredFields
      (mergeConfig benv.renewerConf f.conf) f.store = some cert) :
    cert.configfile = mergeConfig benv.renewerConf f.conf ∧
    (∀ k v, f.conf.top.lookup k = some v →
       cert.configfile.top.lookup k = some v) ∧
    (∀ k, f.conf.top.lookup k = none →
       cert.configfile.top.lookup k = benv.renewerConf.top.lookup k) ∧
    (∀ d, main { benv with defaults := d } (f :: rest) =
       main benv (f :: rest)) := by
  obtain ⟨hc, hst⟩ := mkRenewableCert_configfile benv.requiredFields
    (mergeConfig benv.renewerConf f.conf) f.store cert hmk
  refine ⟨hc, ?_, ?_, ?_⟩
  · intro k v hv
    rw [hc]
    exact lookup_mergeMap_of_some benv.renewerConf.top f.conf.top k v hv
  · intro k hnone
    rw [hc]
    exact lookup_mergeMap_of_none benv.renewerConf.top f.conf.top k hnone
  · intro d
    exact runFiles_defaults benv d (f :: rest)

/-- Witness for the amended C5. -/
theorem effective_config_two_layers_witness :
    (⟨⟨[("cert", "c.pem"), ("renewer_enabled", "true")], none⟩,
       exampleStore⟩ : RenewableCert).configfile =
      mergeConfig benvDefaults.renewerConf fileA.conf :=
  (effective_config_two_layers benvDefaults fileA []
    ⟨⟨[("cert", "c.pem"), ("renewer_enabled", "true")], none⟩, exampleStore⟩
    (by decide)).1

/-- C6: when the autorenew policy fires, the Executor is invoked with the
latest recorded version as base; the autodeploy policy is evaluated on the
post-renewal lineage (so a version renewed in the same pass is deployable
in that pass), and when it fires all three current pointers advance to the
latest recorded version — in particular to the just-created version after
a successful renewal — while deployment leaves the version list untouched
(it creates and deletes nothing); the batch records exactly this final
state for the lineage. -/
theorem autorenew_latest_and_autodeploy_frame (benv : BatchEnv)
    (f : FileEntry) (rest : List FileEntry) (cert final : RenewableCert)
    (evs : List BEvent)
    (hs : strEndsWith f.name ".conf" = true)
    (hmk : mkRenewableCert benv.requiredFields
      (mergeConfig benv.renewerConf f.conf) f.store = some cert)
    (hpe : processEntry benv f.name cert = .ok (final, evs)) :
    (benv.shouldAutorenew cert = true →
       BEvent.renewCalled f.name cert.store.latestCommonVersion ∈ evs) ∧
    (benv.shouldAutodeploy (afterRenewStep benv cert) = true →
       final.store.versions = (afterRenewStep benv cert).store.versions ∧
       final.store.currentCert =
         (afterRenewStep benv cert).store.latestCommonVersion ∧
       final.store.currentPrivkey =
         (afterRenewStep benv cert).store.latestCommonVersion ∧
       final.store.currentChain =
         (afterRenewStep benv cert).store.latestCommonVersion) ∧
    (benv.shouldAutodeploy (afterRenewStep benv cert) = false →
       final = afterRenewStep benv cert) ∧
    (∀ n, benv.shouldAutorenew cert = true →
       (renew cert cert.store.latestCommonVersion benv.env).result =
         .ok (some n) →
       benv.shouldAutodeploy (afterRenewStep benv cert) = true →
       final.store.currentCert = n ∧ final.store.currentPrivkey = n ∧
       final.store.currentChain = n) ∧
    runFiles benv (f :: rest) =
      ⟨(f.name, final) :: (runFiles benv rest).processed,
       evs ++ (runFiles benv rest).events,
       (runFiles benv rest).error⟩ := by
  have hrun := runFiles_cons_ok benv f rest cert final evs hs hmk hpe
  by_cases har : benv.shouldAutorenew cert = true
  · have hstep : afterRenewStep benv cert =
        (renew cert cert.store.latestCommonVersion benv.env).cert := by
      simp [afterRenewStep, har]
    cases hres : (renew cert cert.store.latestCommonVersion benv.env).result
      with
    | error e =>
      rw [processEntry_renew_error benv f.name cert e har hres] at hpe
      exact absurd hpe (by simp)
    | ok r =>
      by_cases had : benv.shouldAutodeploy
          (renew cert cert.store.latestCommonVersion benv.env).cert = true
      · rw [processEntry_renew_ok_deploy benv f.name cert r har hres had]
          at hpe
        simp only [Except.ok.injEq, Prod.mk.injEq] at hpe
        obtain ⟨hfin, hevs⟩ := hpe
        refine ⟨?_, ?_, ?_, ?_, hrun⟩
        · intro _
          rw [← hevs]
          simp
        · intro _
          rw [← hfin, hstep]
          simp [LineageStore.updateAllLinksTo]
        · intro hcon
          rw [hstep] at hcon
          rw [had] at hcon
          exact absurd hcon (by simp)
        · intro n _ hn _
          have hn2 : (renew cert cert.store.latestCommonVersion
              benv.env).result = .ok (some n) := by
            rw [hres]; exact hn
          have hlat := renew_ok_some_latest cert
            cert.store.latestCommonVersion benv.env n hn2
          rw [← hfin]
          simp [LineageStore.updateAllLinksTo, hlat]
      · have had2 : benv.shouldAutodeploy
            (renew cert cert.store.latestCommonVersion benv.env).cert =
            false := by simpa using had
        rw [processEntry_renew_ok_nodeploy benv f.name cert r har hres had2]
          at hpe
        simp only [Except.ok.injEq, Prod.mk.injEq] at hpe
        obtain ⟨hfin, hevs⟩ := hpe
        refine ⟨?_, ?_, ?_, ?_, hrun⟩
        · intro _
          rw [← hevs]
          simp
        · intro hcon
          rw [hstep, had2] at hcon
          exact absurd hcon (by simp)
        · intro _
          rw [← hfin, hstep]
        · intro n _ hn hcon
          rw [hstep, had2] at hcon
          exact absurd hcon (by simp)
  · have har2 : benv.shouldAutorenew cert = false := by simpa using har
    have hstep : afterRenewStep benv cert = cert := by
      simp [afterRenewStep, har2]
    by_cases had : benv.shouldAutodeploy cert = true
    · rw [processEntry_norenew_deploy benv f.name cert har2 had] at hpe
      simp only [Except.ok.injEq, Prod.mk.injEq] at hpe
      obtain ⟨hfin, hevs⟩ := hpe
      refine ⟨?_, ?_, ?_, ?_, hrun⟩
      · intro hcon
        exact absurd hcon (by simp [har2])
      · intro _
        rw [← hfin, hstep]
        simp [LineageStore.updateAllLinksTo]
      · intro hcon
        rw [hstep, had] at hcon
        exact absurd hcon (by simp)
      · intro n hcon
        exact absurd hcon (by simp [har2])
    · have had2 : benv.shouldAutodeploy cert = false := by simpa using had
      rw [processEntry_norenew_nodeploy benv f.name cert har2 had2] at hpe
      simp only [Except.ok.injEq, Prod.mk.injEq] at hpe
      obtain ⟨hfin, hevs⟩ := hpe
      refine ⟨?_, ?_, ?_, ?_, hrun⟩
      · intro hcon
        exact absurd hcon (by simp [har2])
      · intro hcon
        rw [hstep, had2] at hcon
        exact absurd hcon (by simp)
      · intro _
        rw [← hfin, hstep]
      · intro n hcon
        exact absurd hcon (by simp [har2])

/-- Witness for C6 at a one-pass renew-then-deploy of the example
lineage: the just-created version 2 is deployed in the same pass. -/
theorem autorenew_latest_and_autodeploy_frame_witness :
    BEvent.renewCalled "good.conf" certOk.store.latestCommonVersion ∈
      [BEvent.renewCalled "good.conf" 1, BEvent.notifiedRenewal "good.conf",
       BEvent.deployed "good.conf" 2,
       BEvent.notifiedDeployment "good.conf"] :=
  (autorenew_latest_and_autodeploy_frame benvAll fileOk [] certOk
    ⟨certOk.configfile,
     ⟨[exampleVersion, ⟨"NEWCERT", "NEWKEY", "NEWCHAIN"⟩], 2, 2, 2⟩⟩
    [BEvent.renewCalled "good.conf" 1, BEvent.notifiedRenewal "good.conf",
     BEvent.deployed "good.conf" 2, BEvent.notifiedDeployment "good.conf"]
    (by decide) (by decide) (by decide)).1 (by decide)

/-- Witness for C9 at a successful renewal of the example lineage. -/
theorem renew_store_all_or_nothing_witness :
    2 = certOk.store.latestCommonVersion + 1 ∧
    (renew certOk 1 envWithChain).cert.store.latestCommonVersion =
      certOk.store.latestCommonVersion + 1 ∧
    (∃ vd, (renew certOk 1 envWithChain).cert.store.versions =
       certOk.store.versions ++ [vd]) ∧
    (renew certOk 1 envWithChain).cert.store.currentCert =
      certOk.store.currentCert ∧
    (renew certOk 1 envWithChain).cert.store.currentPrivkey =
      certOk.store.currentPrivkey ∧
    (renew certOk 1 envWithChain).cert.store.currentChain =
      certOk.store.currentChain ∧
    ∃ auth names, (renew certOk 1 envWithChain).events =
      [.prepared auth, .obtainCalled names, .savedSuccessor 1] :=
  (renew_store_all_or_nothing certOk 1 envWithChain).1 2 (by decide)

end Renewer
